import Mathlib

/-!
Verification development for the datacube statistical-summary application
(`src/main.py`).  The Python source is shallowly embedded: xarray volumes
become lists indexed by time and pixel, numpy datetime64 values become the
integer number of calendar days since 1970-01-01, measurement dictionaries
become a `Measurement` structure, raised exceptions become `Except` /
`Option` results.  All definitions are executable.
-/

namespace DatacubeStats

/-! ## Proleptic Gregorian calendar model

numpy datetime64 values use the proleptic Gregorian calendar.  A timestamp
is modelled as the integer count of days since the epoch 1970-01-01 (the
result of the `astype to datetime64 at day granularity` cast; sub-day
precision is irrelevant to every calendar field).  The numpy unit casts
used by `datetime64_to_inttime` are modelled by the reference encoder
`daysFromCivil` and decoder `civilFromDays` below.
-/

/-- Gregorian leap-year test (proleptic, valid for all integer years). -/
def isLeap (y : Int) : Bool :=
  (y % 4 == 0 && y % 100 != 0) || (y % 400 == 0)

/-- Number of days in year `y`. -/
def yearLen (y : Int) : Nat :=
  if isLeap y then 366 else 365

/-- Number of days of month `m` (1-based) in year `y`. -/
def monthLen (y : Int) (m : Nat) : Nat :=
  if m = 2 then (if isLeap y then 29 else 28)
  else if m = 4 ∨ m = 6 ∨ m = 9 ∨ m = 11 then 30
  else 31

/-- Days of year `y` that precede month `m` (1-based). -/
def daysBeforeMonth (y : Int) : Nat → Nat
  | 0 => 0
  | 1 => 0
  | m + 2 => daysBeforeMonth y (m + 1) + monthLen y (m + 1)

/-- Leap-year count used to position years relative to each other:
the number of leap years up to (and excluding) year `y`, up to a
constant shared offset. -/
def leapCount (y : Int) : Int :=
  (y - 1) / 4 - (y - 1) / 100 + (y - 1) / 400

/-- Days since the epoch 1970-01-01 of the first day of year `y`. -/
def daysSinceEpochOfYear (y : Int) : Int :=
  365 * (y - 1970) + (leapCount y - leapCount 1970)

/-- Reference encoder: days since the epoch of the calendar date
`(y, m, dom)` with month and day-of-month 1-based. -/
def daysFromCivil (y : Int) (m : Nat) (dom : Int) : Int :=
  daysSinceEpochOfYear y + (daysBeforeMonth y m : Int) + dom - 1

/-- Scan forward at most `fuel` years from year `y`, consuming whole years
from the day count `r`. -/
def findYear : Nat → Int → Nat → Int × Nat
  | 0, y, r => (y, r)
  | fuel + 1, y, r =>
      if r < yearLen y then (y, r) else findYear fuel (y + 1) (r - yearLen y)

/-- Scan forward at most `fuel` months from month `m` of year `y`,
consuming whole months from the day count `r`. -/
def findMonth (y : Int) : Nat → Nat → Nat → Nat × Nat
  | 0, m, r => (m, r)
  | fuel + 1, m, r =>
      if r < monthLen y m then (m, r) else findMonth y fuel (m + 1) (r - monthLen y m)

/-- Reference decoder: the calendar date `(year, month, day-of-month)` of
the day `d` (counted from the epoch 1970-01-01).  `d` is first reduced
modulo the 146097-day / 400-year Gregorian cycle, then the year and month
are found by forward scanning. -/
def civilFromDays (d : Int) : Int × Nat × Nat :=
  let q := d / 146097
  let r := (d - 146097 * q).toNat
  let yr := findYear 400 (1970 + 400 * q) r
  let mr := findMonth yr.1 12 1 yr.2
  (yr.1, mr.1, mr.2 + 1)

/-- Embedding of `values.astype(datetime64 at year granularity).astype(int32) + 1970`:
the calendar year containing day `d`. -/
def npYearOf (d : Int) : Int := (civilFromDays d).1

/-- Embedding of `values.astype(datetime64 at month granularity).astype(int32)`:
the number of whole calendar months between 1970-01 and the month
containing day `d`. -/
def npMonthsSinceEpoch (d : Int) : Int :=
  ((civilFromDays d).1 - 1970) * 12 + ((civilFromDays d).2.1 : Int) - 1

/-- Embedding of casting day `d` to month granularity and back to days:
the first day of the month containing `d`. -/
def npMonthStartDay (d : Int) : Int :=
  daysFromCivil (civilFromDays d).1 (civilFromDays d).2.1 1

/-- Embedding of `datetime64_to_inttime` (src/main.py lines 45-58):
`years * 10000 + months * 100 + days` where `years` is the year cast,
`months` is the month cast taken modulo 12 plus 1, and `days` is the
day cast minus the month cast plus 1.  numpy integer `%` with a positive
divisor is floored modulo, i.e. `Int.emod`. -/
def datetime64_to_inttime (d : Int) : Int :=
  let years := npYearOf d
  let months := npMonthsSinceEpoch d % 12 + 1
  let days := d - npMonthStartDay d + 1
  years * 10000 + months * 100 + days

/-! ## Measurement model

Output measurement dictionaries in src/main.py carry exactly the keys
`name`, `dtype`, `nodata` and `units`. -/

structure Measurement where
  name : String
  dtype : String
  nodata : Int
  units : String
deriving DecidableEq

/-- Embedding of `ValueStat.measurements` (src/main.py lines 82-92):
keeps the attributes `name`, `dtype`, `nodata`, `units` of every input
measurement. -/
def ValueStat.measurements (input_measurements : List Measurement) : List Measurement :=
  input_measurements.map
    (fun measurement =>
      { name := measurement.name, dtype := measurement.dtype,
        nodata := measurement.nodata, units := measurement.units })

/-- Embedding of `PerBandIndexStat.measurements` (src/main.py lines
217-247): the base measurements, then the `_observed` block
(`date_measurements`), then the `_source` block (`index_measurements`),
then the `_observed_date` block (`text_measurements`), concatenated in
the order of the final return statement. -/
def PerBandIndexStat.measurements (input_measurements : List Measurement) : List Measurement :=
  let index_measurements := input_measurements.map
    (fun measurement =>
      { name := measurement.name ++ "_source", dtype := "int8",
        nodata := -1, units := "1" : Measurement })
  let date_measurements := input_measurements.map
    (fun measurement =>
      { name := measurement.name ++ "_observed", dtype := "float64",
        nodata := 0, units := "seconds since 1970-01-01 00:00:00" : Measurement })
  let text_measurements := input_measurements.map
    (fun measurement =>
      { name := measurement.name ++ "_observed_date", dtype := "int32",
        nodata := 0, units := "Date as YYYYMMDD" : Measurement })
  ValueStat.measurements input_measurements ++ date_measurements ++
    index_measurements ++ text_measurements

/-- Embedding of `WofsStats.measurements` (src/main.py lines 121-145):
the assertion that some input measurement is named `water` becomes
`none`; otherwise the three fixed output measurements are returned. -/
def WofsStats.measurements (input_measurements : List Measurement) :
    Option (List Measurement) :=
  if "water" ∈ input_measurements.map Measurement.name then
    some [{ name := "count_wet", dtype := "int16", nodata := -1, units := "1" },
          { name := "count_clear", dtype := "int16", nodata := -1, units := "1" },
          { name := "frequency", dtype := "float32", nodata := -1, units := "1" }]
  else
    none

/-- A configuration error raised by src/main.py: the format string of the
raised `ConfigurationError` plus the names interpolated into it. -/
structure ConfigurationError where
  message : String
  offenders : List String
deriving DecidableEq

/-- Embedding of the `NormalisedDifferenceStats` holder
(src/main.py lines 148-161). -/
structure NormalisedDifferenceStats where
  band1 : String
  band2 : String
  name : String
  stats : List String
  masked : Bool
deriving DecidableEq

/-- Embedding of `NormalisedDifferenceStats.measurements` (src/main.py
lines 172-179): raising `ConfigurationError` becomes the `error` branch. -/
def NormalisedDifferenceStats.measurements (self : NormalisedDifferenceStats)
    (input_measurements : List Measurement) :
    Except ConfigurationError (List Measurement) :=
  let measurement_names := input_measurements.map Measurement.name
  if self.band1 ∉ measurement_names ∨ self.band2 ∉ measurement_names then
    .error { message := "Input measurements for %s must include %s and %s",
             offenders := [self.name, self.band1, self.band2] }
  else
    .ok (self.stats.map
      (fun stat =>
        { name := self.name ++ "_" ++ stat, dtype := "float32",
          nodata := -1, units := "1" }))

/-- The `ndvi_stats` entry of the `STATS` registry (src/main.py lines
329-330). -/
def ndvi_stats : NormalisedDifferenceStats :=
  { band1 := "nir", band2 := "red", name := "ndvi",
    stats := ["min", "mean", "max"], masked := true }

/-! ## Spatiotemporal volume model and PerBandIndexStat.compute

An xarray Dataset becomes `Volume`: a time coordinate (integer day
timestamps), a `source` coordinate along time, and named data variables
stored time-major (one flat pixel list per time slice). -/

structure Volume where
  time : List Int
  source : List Int
  data_vars : List (String × List (List Int))

/-- Lookup of `data.data_vars[name]`; a missing name yields the empty
variable (the Python lookup only ever receives names produced from
`data.data_vars` itself). -/
def lookup_data_var (data : Volume) (n : String) : List (List Int) :=
  (data.data_vars.lookup n).getD []

/-- Modelled from the spec: `gather-by-index` of section 4.1 (the source
imports `axisindex` from a module that is not under src/).  Given a
time-major array and one integer time index per pixel, returns the value
at the chosen time index for each pixel position. -/
def axisindex (values : List (List Int)) (index : List Nat) : List Int :=
  index.enum.map (fun pi => (values.getD pi.2 []).getD pi.1 0)

/-- Embedding of `PerBandIndexStat.compute` (src/main.py lines 192-215).
`stat_func` produces one per-pixel time index list per variable.  The
Python local `time_values` is bound twice; the second binding (the
`_source` gather) shadows the first (the `_observed` gather) before the
final merge, exactly as in the source. -/
def PerBandIndexStat.compute (stat_func : Volume → List (String × List Nat))
    (data : Volume) : List (String × List Int) :=
  let index := stat_func data
  let data_values := index.map
    (fun v => (v.1, axisindex (lookup_data_var data v.1) v.2))
  let time_values := index.map
    (fun v => (v.1 ++ "_observed", v.2.map (fun i => data.time.getD i 0)))
  let text_values := time_values.map
    (fun v => (v.1 ++ "_date", v.2.map datetime64_to_inttime))
  let time_values := index.map
    (fun v => (v.1 ++ "_source", v.2.map (fun i => data.source.getD i 0)))
  data_values ++ time_values ++ text_values

/-- A one-variable input volume used to evaluate
`PerBandIndexStat.compute` concretely. -/
def examplePerBandVolume : Volume :=
  { time := [17073, 10956], source := [0, 1],
    data_vars := [("blue", [[10, 20], [30, 40]])] }

/-- A concrete index-producing statistic function: index 0 for the first
pixel, index 1 for the second. -/
def exampleIndexFunc : Volume → List (String × List Nat) :=
  fun data => data.data_vars.map (fun v => (v.1, [0, 1]))

/-! ## WofsStats.compute

The `water` variable is stored time-major; results are per-pixel lists.
Counts are exact naturals, the frequency is an exact rational (xarray
performs true division of the two count arrays). -/

/-- The per-pixel time series of the water variable at pixel `p`. -/
def waterColumn (water : List (List Int)) (p : Nat) : List Int :=
  water.map (fun row => row.getD p 0)

structure WofsOutput where
  count_wet : List Nat
  count_clear : List Nat
  frequency : List ℚ

/-- Embedding of `WofsStats.compute` (src/main.py lines 111-119):
`wet` counts time slices whose water code equals 128, `dry` counts code
0, `clear = wet + dry`, `frequency = wet / clear`. -/
def WofsStats.compute (npix : Nat) (water : List (List Int)) : WofsOutput :=
  let wet := (List.range npix).map (fun p => (waterColumn water p).countP (fun v => v == 128))
  let dry := (List.range npix).map (fun p => (waterColumn water p).countP (fun v => v == 0))
  let clear := List.zipWith (fun w d => w + d) wet dry
  let frequency := List.zipWith (fun (w c : Nat) => ((w : ℚ) / (c : ℚ))) wet clear
  { count_wet := wet, count_clear := clear, frequency := frequency }

/-! ## make_products -/

/-- An output-product definition from the configuration document (name
and statistic are the fields the duplicate check and registry lookup
use). -/
structure OutputProductDefn where
  name : String
  statistic : String
deriving DecidableEq

/-- Embedding of `make_products` (src/main.py lines 791-809): the
duplicate-name check runs first; only when it passes are the output
products built (the `StatProduct` construction and the measurement
lookup against the database index are abstracted to pairing each
definition with its name). -/
def make_products (output_products : List OutputProductDefn) :
    Except ConfigurationError (List (String × OutputProductDefn)) :=
  let output_names := output_products.map OutputProductDefn.name
  let duplicate_names := output_names.filter (fun x => 1 < output_names.count x)
  if duplicate_names = [] then
    .ok (output_products.map (fun prod => (prod.name, prod)))
  else
    .error { message := "Output products must all have different names. Duplicates found: %s",
             offenders := duplicate_names }

/-! ## make_tasks_non_grid -/

/-- A source specification from the configuration document. -/
structure SourceSpec where
  product : String
  measurements : List String
deriving DecidableEq

/-- A non-grid task: one time period plus the source bundles that
survived the zero-observation check (masks and the tile payload are
carried by the external catalog collaborator and are not needed by the
claims). -/
structure NonGridTask where
  time_period : Int × Int
  sources : List SourceSpec
deriving DecidableEq

/-- Embedding of `make_tasks_non_grid` (src/main.py lines 733-784): one
task per time period; a source spec is skipped exactly when the tile
built for it has zero time observations (`len(data.sources.time) == 0`).
`observation_count` abstracts the external catalog lookup
`dc.product_observations` / `product_sources`. -/
def make_tasks_non_grid (periods : List (Int × Int)) (source_specs : List SourceSpec)
    (observation_count : Int × Int → SourceSpec → Nat) : List NonGridTask :=
  periods.map (fun time_period =>
    { time_period := time_period,
      sources := source_specs.filter
        (fun source_spec => ¬ observation_count time_period source_spec = 0) })

/-- A concrete catalog: product `ls8` has observations, product `ls7`
has none. -/
def exampleObservationCount : Int × Int → SourceSpec → Nat :=
  fun _ source_spec => if source_spec.product = "ls8" then 2 else 0

/-! ## Output driver close semantics and do_stats

The driver state is the `output_files` mapping, each handle carrying an
open flag.  The body of the `with` block (chunk loop, statistics,
writes) is abstracted as a state transformer that may end with an
exception; `do_stats` composes it with the context-manager protocol:
`__enter__` opens the files, the body runs, and `__exit__` runs with the
body outcome on both the normal and the exceptional path. -/

structure OutputDriverState where
  output_files : List (String × Bool)
deriving DecidableEq

/-- Embedding of `OutputDriver.close_files` (src/main.py lines 504-506):
closes every handle held in `output_files`. -/
def close_files (s : OutputDriverState) : OutputDriverState :=
  { output_files := s.output_files.map (fun f => (f.1, false)) }

/-- Embedding of `OutputDriver.__exit__` (src/main.py lines 521-522): it
ignores the exception information and invokes `close_files`
unconditionally, so the exception (when present) propagates unchanged. -/
def exit_handler (_exc : Option String) (s : OutputDriverState) : OutputDriverState :=
  close_files s

/-- Embedding of `open_output_files` of the concrete drivers: one opened
handle per output product. -/
def open_output_files (product_names : List String) : OutputDriverState :=
  { output_files := product_names.map (fun n => (n, true)) }

/-- Embedding of `do_stats` (src/main.py lines 628-642) restricted to
its resource behaviour: the chunk/compute/write body runs inside the
`with output_driver(task, config)` block, so `__exit__` receives the
body outcome on every exit path. -/
def do_stats (product_names : List String)
    (body : OutputDriverState → Option String × OutputDriverState) :
    Option String × OutputDriverState :=
  let entered := open_output_files product_names
  let step := body entered
  (step.1, exit_handler step.1 step.2)

/-- A body that fails while writing: it raises after the driver opened
its files. -/
def exampleFailingBody : OutputDriverState → Option String × OutputDriverState :=
  fun s => (some "write failed", s)

end DatacubeStats

namespace DatacubeStats

/-! ## Calendar lemmas -/

theorem daysSinceEpochOfYear_succ (y : Int) :
    daysSinceEpochOfYear (y + 1) = daysSinceEpochOfYear y + yearLen y := by
  simp only [daysSinceEpochOfYear, leapCount, yearLen, isLeap]
  split
  · rename_i h
    simp only [Bool.or_eq_true, Bool.and_eq_true, beq_iff_eq, bne_iff_ne, ne_eq] at h
    push_cast
    omega
  · rename_i h
    simp only [Bool.or_eq_true, Bool.and_eq_true, beq_iff_eq, bne_iff_ne, ne_eq] at h
    push_cast
    omega

theorem daysSinceEpochOfYear_cycle (q : Int) :
    daysSinceEpochOfYear (1970 + 400 * q) = 146097 * q := by
  simp only [daysSinceEpochOfYear, leapCount]
  omega

theorem findYear_spec (fuel : Nat) : ∀ (y : Int) (r : Nat),
    (r : Int) + daysSinceEpochOfYear y < daysSinceEpochOfYear (y + fuel) →
    ((findYear fuel y r).2 : Int) < yearLen (findYear fuel y r).1 ∧
      daysSinceEpochOfYear (findYear fuel y r).1 + ((findYear fuel y r).2 : Int) =
        daysSinceEpochOfYear y + r := by
  induction fuel with
  | zero =>
      intro y r h
      simp only [Nat.cast_zero, add_zero] at h
      omega
  | succ n ih =>
      intro y r h
      rw [findYear]
      split
      · rename_i hlt
        constructor
        · show ((r : Int)) < ((yearLen y : Nat) : Int)
          exact_mod_cast hlt
        · show daysSinceEpochOfYear y + (r : Int) = daysSinceEpochOfYear y + (r : Int)
          rfl
      · rename_i hge
        have hyl : yearLen y ≤ r := Nat.le_of_not_lt hge
        have hstep := daysSinceEpochOfYear_succ y
        have harg : y + ((n : Int) + 1) = (y + 1) + (n : Int) := by ring
        rw [show ((n + 1 : Nat) : Int) = (n : Int) + 1 by push_cast; ring, harg] at h
        have hpre : ((r - yearLen y : Nat) : Int) + daysSinceEpochOfYear (y + 1) <
            daysSinceEpochOfYear ((y + 1) + n) := by
          have : ((r - yearLen y : Nat) : Int) = (r : Int) - (yearLen y : Int) := by
            omega
          omega
        have hres := ih (y + 1) (r - yearLen y) hpre
        refine ⟨hres.1, ?_⟩
        have : ((r - yearLen y : Nat) : Int) = (r : Int) - (yearLen y : Int) := by omega
        omega

theorem daysBeforeMonth_step (y : Int) (m : Nat) (hm : 1 ≤ m) :
    daysBeforeMonth y (m + 1) = daysBeforeMonth y m + monthLen y m := by
  match m, hm with
  | k + 1, _ => rfl

theorem findMonth_spec (y : Int) (fuel : Nat) : ∀ (m r : Nat),
    1 ≤ m →
    daysBeforeMonth y m + r < daysBeforeMonth y (m + fuel) →
    (findMonth y fuel m r).2 < monthLen y (findMonth y fuel m r).1 ∧
      daysBeforeMonth y (findMonth y fuel m r).1 + (findMonth y fuel m r).2 =
        daysBeforeMonth y m + r ∧
      1 ≤ (findMonth y fuel m r).1 ∧ (findMonth y fuel m r).1 < m + fuel := by
  induction fuel with
  | zero =>
      intro m r _ h
      simp only [Nat.add_zero] at h
      omega
  | succ n ih =>
      intro m r hm h
      rw [findMonth]
      split
      · rename_i hlt
        exact ⟨hlt, rfl, hm, by omega⟩
      · rename_i hge
        have hml : monthLen y m ≤ r := Nat.le_of_not_lt hge
        have hstep := daysBeforeMonth_step y m hm
        have hpre : daysBeforeMonth y (m + 1) + (r - monthLen y m) <
            daysBeforeMonth y ((m + 1) + n) := by
          rw [show (m + 1) + n = m + (n + 1) by omega]
          omega
        have hres := ih (m + 1) (r - monthLen y m) (by omega) hpre
        refine ⟨hres.1, ?_, hres.2.2.1, by omega⟩
        omega

theorem daysBeforeMonth_thirteen (y : Int) : daysBeforeMonth y 13 = yearLen y := by
  cases h : isLeap y <;>
    simp [daysBeforeMonth, monthLen, yearLen, h]

theorem decode_within_era (q : Int) (r : Nat) (hr : r < 146097) :
    daysFromCivil (findYear 400 (1970 + 400 * q) r).1
        (findMonth (findYear 400 (1970 + 400 * q) r).1 12 1
          (findYear 400 (1970 + 400 * q) r).2).1
        (((findMonth (findYear 400 (1970 + 400 * q) r).1 12 1
          (findYear 400 (1970 + 400 * q) r).2).2 : Int) + 1) = 146097 * q + r ∧
      1 ≤ (findMonth (findYear 400 (1970 + 400 * q) r).1 12 1
          (findYear 400 (1970 + 400 * q) r).2).1 ∧
      (findMonth (findYear 400 (1970 + 400 * q) r).1 12 1
          (findYear 400 (1970 + 400 * q) r).2).1 ≤ 12 := by
  have hy := findYear_spec 400 (1970 + 400 * q) r (by
    rw [show (1970 + 400 * q) + ((400 : Nat) : Int) = 1970 + 400 * (q + 1) by push_cast; ring]
    rw [daysSinceEpochOfYear_cycle, daysSinceEpochOfYear_cycle]
    omega)
  set Y := (findYear 400 (1970 + 400 * q) r).1 with hY
  set R := (findYear 400 (1970 + 400 * q) r).2 with hR
  have hm := findMonth_spec Y 12 1 R (by omega) (by
    show daysBeforeMonth Y 1 + R < daysBeforeMonth Y 13
    rw [daysBeforeMonth_thirteen]
    have : (R : Int) < (yearLen Y : Int) := hy.1
    simp only [daysBeforeMonth]
    omega)
  set M := (findMonth Y 12 1 R).1 with hM
  set D := (findMonth Y 12 1 R).2 with hD
  have hsum : daysBeforeMonth Y M + D = R := by
    have := hm.2.1
    simp only [daysBeforeMonth] at this
    omega
  refine ⟨?_, hm.2.2.1, by omega⟩
  have hpos := hy.2
  rw [daysSinceEpochOfYear_cycle] at hpos
  simp only [daysFromCivil]
  omega

theorem civilFromDays_spec (d : Int) :
    daysFromCivil (civilFromDays d).1 (civilFromDays d).2.1 ((civilFromDays d).2.2 : Int) = d ∧
      1 ≤ (civilFromDays d).2.1 ∧ (civilFromDays d).2.1 ≤ 12 ∧
      1 ≤ (civilFromDays d).2.2 := by
  have hq : 0 ≤ d - 146097 * (d / 146097) ∧ d - 146097 * (d / 146097) < 146097 := by omega
  have hcast : ((d - 146097 * (d / 146097)).toNat : Int) = d - 146097 * (d / 146097) :=
    Int.toNat_of_nonneg hq.1
  have hrlt : (d - 146097 * (d / 146097)).toNat < 146097 := by omega
  have h := decode_within_era (d / 146097) (d - 146097 * (d / 146097)).toNat hrlt
  simp only [civilFromDays]
  refine ⟨?_, h.2.1, h.2.2, by omega⟩
  rw [show ((((findMonth (findYear 400 (1970 + 400 * (d / 146097))
      (d - 146097 * (d / 146097)).toNat).1 12 1
      (findYear 400 (1970 + 400 * (d / 146097)) (d - 146097 * (d / 146097)).toNat).2).2 + 1 : Nat)) : Int) =
      (((findMonth (findYear 400 (1970 + 400 * (d / 146097))
      (d - 146097 * (d / 146097)).toNat).1 12 1
      (findYear 400 (1970 + 400 * (d / 146097)) (d - 146097 * (d / 146097)).toNat).2).2 : Int) + 1)
    by push_cast; ring]
  rw [h.1]
  omega

/-- C4: for every timestamp (modelled as an integer day count since
1970-01-01), `datetime64_to_inttime` returns `year * 10000 + month * 100 +
day` for exactly the calendar fields produced by the reference decoder
`civilFromDays`; in particular day 17073 (2016-09-29) maps to 20160929 and
day 10956 (1999-12-31) maps to 19991231. -/
theorem datetime64_to_inttime_encodes_calendar (d : Int) :
    datetime64_to_inttime d =
      (civilFromDays d).1 * 10000 + ((civilFromDays d).2.1 : Int) * 100 +
        ((civilFromDays d).2.2 : Int) ∧
      1 ≤ (civilFromDays d).2.1 ∧ (civilFromDays d).2.1 ≤ 12 ∧
      1 ≤ (civilFromDays d).2.2 ∧
      datetime64_to_inttime 17073 = 20160929 ∧
      datetime64_to_inttime 10956 = 19991231 := by
  have h := civilFromDays_spec d
  refine ⟨?_, h.2.1, h.2.2.1, h.2.2.2, by decide, by decide⟩
  simp only [datetime64_to_inttime, npYearOf, npMonthsSinceEpoch, npMonthStartDay,
    daysFromCivil] at *
  omega

/-! ## Statistic descriptor theorems -/

/-- C1: on a concrete one-variable volume, `PerBandIndexStat.compute`
returns the gathered values, the gathered source tags and the gathered
YYYYMMDD dates, but not the `_observed` timestamp variable, although the
class declares `blue_observed` among its output measurements: the Python
local holding the `_observed` gather is overwritten by the `_source`
gather before the merge. -/
theorem PerBandIndexStat_compute_drops_observed :
    PerBandIndexStat.compute exampleIndexFunc examplePerBandVolume =
        [("blue", [10, 40]), ("blue_source", [0, 1]),
         ("blue_observed_date", [20160929, 19991231])] ∧
      "blue_observed" ∉
        (PerBandIndexStat.compute exampleIndexFunc examplePerBandVolume).map Prod.fst ∧
      "blue_observed" ∈
        (PerBandIndexStat.measurements
          [{ name := "blue", dtype := "int16", nodata := -1, units := "1" }]).map
          Measurement.name := by
  refine ⟨by decide, by decide, by decide⟩

/-- C2 (amended): `PerBandIndexStat.measurements` returns `4 * N`
declarations, ordered as the `N` base reduced-value measurements, then
the `N` `_observed` measurements, then the `N` `_source` measurements,
then the `N` `_observed_date` measurements. -/
theorem PerBandIndexStat_measurements_spec (input_measurements : List Measurement) :
    (PerBandIndexStat.measurements input_measurements).length =
        4 * input_measurements.length ∧
      (PerBandIndexStat.measurements input_measurements).map Measurement.name =
        input_measurements.map Measurement.name ++
          input_measurements.map (fun m => m.name ++ "_observed") ++
          input_measurements.map (fun m => m.name ++ "_source") ++
          input_measurements.map (fun m => m.name ++ "_observed_date") := by
  constructor
  · simp only [PerBandIndexStat.measurements, ValueStat.measurements, List.length_append,
      List.length_map]
    ring
  · simp [PerBandIndexStat.measurements, ValueStat.measurements, List.map_append,
      List.map_map, Function.comp_def]

/-- C2 (counterexample): the ordering stated by the claim - base values,
then `_source`, then `_observed`, then `_observed_date` - is not the
ordering the code produces for a single input measurement named
`blue`. -/
theorem PerBandIndexStat_measurements_claimed_order_false :
    (PerBandIndexStat.measurements
        [{ name := "blue", dtype := "int16", nodata := -1, units := "1" }]).map
        Measurement.name ≠
      ["blue", "blue_source", "blue_observed", "blue_observed_date"] := by
  decide

/-- C5: `NormalisedDifferenceStats.measurements` fails with a
configuration error exactly when one of the two referenced bands is
missing from the input measurement names, and otherwise returns one
output measurement per configured reduction. -/
theorem NormalisedDifferenceStats_measurements_spec
    (self : NormalisedDifferenceStats) (input_measurements : List Measurement) :
    ((self.band1 ∉ input_measurements.map Measurement.name ∨
        self.band2 ∉ input_measurements.map Measurement.name) →
        ∃ e, self.measurements input_measurements = .error e) ∧
      (self.band1 ∈ input_measurements.map Measurement.name →
        self.band2 ∈ input_measurements.map Measurement.name →
        ∃ out, self.measurements input_measurements = .ok out ∧
          out.length = self.stats.length) := by
  constructor
  · intro h
    refine ⟨{ message := "Input measurements for %s must include %s and %s",
              offenders := [self.name, self.band1, self.band2] }, ?_⟩
    simp only [NormalisedDifferenceStats.measurements]
    rw [if_pos h]
  · intro h1 h2
    refine ⟨self.stats.map
        (fun stat =>
          { name := self.name ++ "_" ++ stat, dtype := "float32",
            nodata := -1, units := "1" }), ?_, ?_⟩
    · simp only [NormalisedDifferenceStats.measurements]
      rw [if_neg (by push_neg; exact ⟨h1, h2⟩)]
    · simp

/-- C5 witness: the registry entry `ndvi_stats` (reductions `min`,
`mean`, `max`) fails on an input missing `nir` and `red`, and returns
exactly 3 output measurements when both bands are present. -/
theorem NormalisedDifferenceStats_measurements_spec_witness :
    (∃ e, ndvi_stats.measurements
        [{ name := "blue", dtype := "int16", nodata := -1, units := "1" }] = .error e) ∧
      ∃ out, ndvi_stats.measurements
          [{ name := "nir", dtype := "int16", nodata := -1, units := "1" },
           { name := "red", dtype := "int16", nodata := -1, units := "1" }] = .ok out ∧
        out.length = ndvi_stats.stats.length :=
  ⟨(NormalisedDifferenceStats_measurements_spec ndvi_stats
      [{ name := "blue", dtype := "int16", nodata := -1, units := "1" }]).1
      (by decide),
   (NormalisedDifferenceStats_measurements_spec ndvi_stats
      [{ name := "nir", dtype := "int16", nodata := -1, units := "1" },
       { name := "red", dtype := "int16", nodata := -1, units := "1" }]).2
      (by decide) (by decide)⟩

/-- C6: at every pixel whose water-code time series is
`[128, 0, 128, 0]`, `WofsStats.compute` yields `count_wet = 2`,
`count_clear = 4` and `frequency = 1/2`. -/
theorem WofsStats_compute_spec (npix : Nat) (water : List (List Int)) (p : Nat)
    (hp : p < npix) (hcol : waterColumn water p = [128, 0, 128, 0]) :
    (WofsStats.compute npix water).count_wet.getD p 0 = 2 ∧
      (WofsStats.compute npix water).count_clear.getD p 0 = 4 ∧
      (WofsStats.compute npix water).frequency.getD p 0 = 1 / 2 := by
  have hwet : ((List.range npix).map
      (fun q => (waterColumn water q).countP (fun v => v == 128)))[p]? =
      some ((waterColumn water p).countP (fun v => v == 128)) := by
    rw [List.getElem?_map]
    simp [List.getElem?_range, hp]
  have hdry : ((List.range npix).map
      (fun q => (waterColumn water q).countP (fun v => v == 0)))[p]? =
      some ((waterColumn water p).countP (fun v => v == 0)) := by
    rw [List.getElem?_map]
    simp [List.getElem?_range, hp]
  have hwet2 : (waterColumn water p).countP (fun v => v == 128) = 2 := by
    rw [hcol]
    rfl
  have hdry2 : (waterColumn water p).countP (fun v => v == 0) = 2 := by
    rw [hcol]
    rfl
  have hwetv : ((List.range npix).map
      (fun q => (waterColumn water q).countP (fun v => v == 128)))[p]? = some 2 := by
    rw [hwet, hwet2]
  have hdryv : ((List.range npix).map
      (fun q => (waterColumn water q).countP (fun v => v == 0)))[p]? = some 2 := by
    rw [hdry, hdry2]
  have hclearv : (List.zipWith (fun w d => w + d)
      ((List.range npix).map (fun q => (waterColumn water q).countP (fun v => v == 128)))
      ((List.range npix).map (fun q => (waterColumn water q).countP (fun v => v == 0))))[p]? =
      some 4 := by
    rw [List.getElem?_zipWith, hwetv, hdryv]
  refine ⟨?_, ?_, ?_⟩
  · show ((List.range npix).map
        (fun q => (waterColumn water q).countP (fun v => v == 128))).getD p 0 = 2
    rw [List.getD_eq_getElem?_getD, hwetv]
    rfl
  · show (List.zipWith (fun w d => w + d)
        ((List.range npix).map (fun q => (waterColumn water q).countP (fun v => v == 128)))
        ((List.range npix).map (fun q => (waterColumn water q).countP (fun v => v == 0)))).getD
        p 0 = 4
    rw [List.getD_eq_getElem?_getD, hclearv]
    rfl
  · show (List.zipWith (fun (w c : Nat) => ((w : ℚ) / (c : ℚ)))
        ((List.range npix).map (fun q => (waterColumn water q).countP (fun v => v == 128)))
        (List.zipWith (fun w d => w + d)
          ((List.range npix).map (fun q => (waterColumn water q).countP (fun v => v == 128)))
          ((List.range npix).map (fun q => (waterColumn water q).countP (fun v => v == 0))))).getD
        p 0 = 1 / 2
    rw [List.getD_eq_getElem?_getD, List.getElem?_zipWith, hwetv, hclearv]
    show ((2 : Nat) : ℚ) / ((4 : Nat) : ℚ) = 1 / 2
    norm_num

/-- C6 witness: a four-timestep one-pixel stack with codes
`[128, 0, 128, 0]`. -/
theorem WofsStats_compute_spec_witness :
    0 < 1 ∧ waterColumn [[128], [0], [128], [0]] 0 = [128, 0, 128, 0] ∧
      ((WofsStats.compute 1 [[128], [0], [128], [0]]).count_wet.getD 0 0 = 2 ∧
        (WofsStats.compute 1 [[128], [0], [128], [0]]).count_clear.getD 0 0 = 4 ∧
        (WofsStats.compute 1 [[128], [0], [128], [0]]).frequency.getD 0 0 = 1 / 2) :=
  ⟨by decide, by decide,
   WofsStats_compute_spec 1 [[128], [0], [128], [0]] 0 (by decide) (by decide)⟩

/-! ## Error handling and task theorems -/

/-- C7: whatever the body of the `with` block does - finish normally or
raise - `do_stats` leaves every output file handle closed, and the body
outcome (the exception, when one was raised) propagates unchanged. -/
theorem do_stats_closes_files (product_names : List String)
    (body : OutputDriverState → Option String × OutputDriverState) :
    (do_stats product_names body).1 = (body (open_output_files product_names)).1 ∧
      (do_stats product_names body).2.output_files.all (fun f => f.2 == false) = true := by
  refine ⟨rfl, ?_⟩
  simp [do_stats, exit_handler, close_files, List.all_map, Function.comp]

/-- C8: whenever some output-product name occurs more than once,
`make_products` fails with the configuration error listing the
duplicated names (and builds no products). -/
theorem make_products_rejects_duplicate_names (output_products : List OutputProductDefn)
    (x : String) (hx : x ∈ output_products.map OutputProductDefn.name)
    (hcount : 1 < (output_products.map OutputProductDefn.name).count x) :
    ∃ dups, make_products output_products =
        .error { message := "Output products must all have different names. Duplicates found: %s",
                 offenders := dups } ∧ x ∈ dups := by
  have hmem : x ∈ (output_products.map OutputProductDefn.name).filter
      (fun n => 1 < (output_products.map OutputProductDefn.name).count n) :=
    List.mem_filter.mpr ⟨hx, by simpa using hcount⟩
  refine ⟨_, ?_, hmem⟩
  simp only [make_products]
  rw [if_neg (List.ne_nil_of_mem hmem)]

/-- C8 witness: two products both named `annual`. -/
theorem make_products_rejects_duplicate_names_witness :
    ("annual" ∈ ([{ name := "annual", statistic := "mean" },
        { name := "annual", statistic := "max" }] : List OutputProductDefn).map
        OutputProductDefn.name) ∧
      1 < (([{ name := "annual", statistic := "mean" },
        { name := "annual", statistic := "max" }] : List OutputProductDefn).map
        OutputProductDefn.name).count "annual" ∧
      ∃ dups, make_products [{ name := "annual", statistic := "mean" },
          { name := "annual", statistic := "max" }] =
        .error { message := "Output products must all have different names. Duplicates found: %s",
                 offenders := dups } ∧ "annual" ∈ dups :=
  ⟨by decide, by decide,
   make_products_rejects_duplicate_names
     [{ name := "annual", statistic := "mean" }, { name := "annual", statistic := "max" }]
     "annual" (by decide) (by decide)⟩

/-- C9: in non-grid mode exactly one task is emitted per time period (in
order), and a configured source spec belongs to a task exactly when it
is configured and yields a nonzero observation count in that task's
period. -/
theorem make_tasks_non_grid_spec (periods : List (Int × Int))
    (source_specs : List SourceSpec)
    (observation_count : Int × Int → SourceSpec → Nat) :
    (make_tasks_non_grid periods source_specs observation_count).map
        NonGridTask.time_period = periods ∧
      ∀ task ∈ make_tasks_non_grid periods source_specs observation_count,
        ∀ source_spec : SourceSpec,
          source_spec ∈ task.sources ↔
            source_spec ∈ source_specs ∧
              observation_count task.time_period source_spec ≠ 0 := by
  constructor
  · simp [make_tasks_non_grid, List.map_map, Function.comp_def]
  · intro task htask source_spec
    simp only [make_tasks_non_grid, List.mem_map] at htask
    obtain ⟨p, hp, rfl⟩ := htask
    simp [List.mem_filter]

/-- C9 witness: one period, two configured sources, of which only `ls8`
has observations. -/
theorem make_tasks_non_grid_spec_witness :
    (({ time_period := (0, 1),
        sources := [{ product := "ls8", measurements := ["blue"] }] } : NonGridTask) ∈
        make_tasks_non_grid [(0, 1)]
          [{ product := "ls7", measurements := ["blue"] },
           { product := "ls8", measurements := ["blue"] }] exampleObservationCount) ∧
      (({ product := "ls8", measurements := ["blue"] } : SourceSpec) ∈
          ({ time_period := (0, 1),
             sources := [{ product := "ls8", measurements := ["blue"] }] } : NonGridTask).sources ↔
        ({ product := "ls8", measurements := ["blue"] } : SourceSpec) ∈
            [({ product := "ls7", measurements := ["blue"] } : SourceSpec),
             { product := "ls8", measurements := ["blue"] }] ∧
          exampleObservationCount
            ({ time_period := (0, 1),
               sources := [{ product := "ls8", measurements := ["blue"] }] } : NonGridTask).time_period
            { product := "ls8", measurements := ["blue"] } ≠ 0) :=
  ⟨by decide,
   (make_tasks_non_grid_spec [(0, 1)]
      [{ product := "ls7", measurements := ["blue"] },
       { product := "ls8", measurements := ["blue"] }] exampleObservationCount).2
     { time_period := (0, 1), sources := [{ product := "ls8", measurements := ["blue"] }] }
     (by decide)
     { product := "ls8", measurements := ["blue"] }⟩

/-- C10: `WofsStats.measurements` fails exactly when no input
measurement is named `water`, and otherwise returns the three fixed
output measurements, independent of the other inputs present. -/
theorem WofsStats_measurements_spec (input_measurements : List Measurement) :
    ("water" ∉ input_measurements.map Measurement.name →
        WofsStats.measurements input_measurements = none) ∧
      ("water" ∈ input_measurements.map Measurement.name →
        WofsStats.measurements input_measurements =
          some [{ name := "count_wet", dtype := "int16", nodata := -1, units := "1" },
                { name := "count_clear", dtype := "int16", nodata := -1, units := "1" },
                { name := "frequency", dtype := "float32", nodata := -1, units := "1" }]) := by
  constructor <;> intro h <;> simp [WofsStats.measurements, h]

/-- C10 witness: an input without `water` fails; an input with `water`
plus an unrelated band yields exactly the three fixed outputs. -/
theorem WofsStats_measurements_spec_witness :
    ("water" ∉ ([{ name := "blue", dtype := "int16", nodata := -1, units := "1" }] :
        List Measurement).map Measurement.name) ∧
      WofsStats.measurements
          [{ name := "blue", dtype := "int16", nodata := -1, units := "1" }] = none ∧
      ("water" ∈ ([{ name := "water", dtype := "uint8", nodata := 0, units := "1" },
          { name := "extra", dtype := "int16", nodata := -1, units := "1" }] :
          List Measurement).map Measurement.name) ∧
      WofsStats.measurements
          [{ name := "water", dtype := "uint8", nodata := 0, units := "1" },
           { name := "extra", dtype := "int16", nodata := -1, units := "1" }] =
        some [{ name := "count_wet", dtype := "int16", nodata := -1, units := "1" },
              { name := "count_clear", dtype := "int16", nodata := -1, units := "1" },
              { name := "frequency", dtype := "float32", nodata := -1, units := "1" }] :=
  ⟨by decide,
   (WofsStats_measurements_spec
      [{ name := "blue", dtype := "int16", nodata := -1, units := "1" }]).1 (by decide),
   by decide,
   (WofsStats_measurements_spec
      [{ name := "water", dtype := "uint8", nodata := 0, units := "1" },
       { name := "extra", dtype := "int16", nodata := -1, units := "1" }]).2 (by decide)⟩

end DatacubeStats
